import Mathlib

/-!
Verification of the booking core of the Tennis Club API (`src/main.py`,
`src/schemas.py`): the reservation data model, the `create_booking`
(POST /bookings) conflict check and commit, and `my_bookings`
(GET /my/bookings).  Datetimes are modelled as integers (minutes since
midnight in the concrete examples); the MongoDB comparisons `$lt`/`$gt`
become `<`/`>` on `Int`.  The persistence layer (`database.py`) is not in
the source tree, so its two operations used here are modelled from the
spec, as noted on their doc comments.
-/

namespace TennisClub

/-- Reservation status, from the `Booking` schema in `schemas.py`
(`Literal["confirmed", "cancelled"]`, default `"confirmed"`). -/
inductive BStatus where
  | confirmed
  | cancelled
deriving DecidableEq, Repr

/-- A persisted booking document: the `Booking` schema of `schemas.py`
plus the server-assigned id.  Spec §6: persisted reservation shape is
`id, resource_id (court_id), user_id, start_time, end_time, status`. -/
structure BookingDoc where
  id : Nat
  user_id : String
  court_id : String
  start_time : Int
  end_time : Int
  status : BStatus
deriving DecidableEq, Repr

/-- The request body of POST /bookings: class `BookingIn` in `main.py`.
It has exactly the three fields `court_id`, `start_time`, `end_time`;
in particular it carries no `user_id`. -/
structure BookingIn where
  court_id : String
  start_time : Int
  end_time : Int
deriving DecidableEq, Repr

/-- The value stored in the `TOKENS` map of `main.py` for a token
(restricted to the fields the booking endpoints read). -/
structure UserRec where
  user_id : String
  role : String
deriving DecidableEq, Repr

/-- An error response: `HTTPException(status_code, detail)` in `main.py`. -/
inductive ApiError where
  | http (status_code : Nat) (detail : String)
deriving DecidableEq, Repr

/-- Server state: the in-memory `TOKENS` map (as an association list) and
the `booking` collection of the document store, in insertion order, plus
the next id the store will assign. -/
structure ServerState where
  tokens : List (String × UserRec)
  bookings : List BookingDoc
  next_id : Nat
deriving DecidableEq, Repr

/-- `get_current_user` from `main.py`: look the token up in `TOKENS`,
raise `HTTPException(401, "Invalid token")` when absent. -/
def get_current_user (s : ServerState) (token : String) : Except ApiError UserRec :=
  match s.tokens.lookup token with
  | some u => .ok u
  | none => .error (.http 401 "Invalid token")

/-- The conflict query of `create_booking` in `main.py`:
`db.booking.find` filtered by `court_id == payload.court_id` and
`start_time $lt payload.end_time` and `end_time $gt payload.start_time`.
No filter on `status`.  Modelled from the spec for the store side:
`database.py` is not under `src/`; spec §4.3 says `List(kind, filter?)`
returns the stored documents matching the predicate map. -/
def bookingFind (bookings : List BookingDoc) (payload : BookingIn) : List BookingDoc :=
  bookings.filter fun b =>
    b.court_id == payload.court_id
      && decide (b.start_time < payload.end_time)
      && decide (b.end_time > payload.start_time)

/-- Modelled from the spec: `create_document` lives in `database.py`, which
is not under `src/`.  Spec §4.3: `Create(kind, document)` assigns a fresh
unique identity, stores the document and returns the identity; ids are
modelled as consecutive naturals.  The stored booking takes the shape of
the `Booking` schema of `schemas.py`, whose `status` field defaults to
`"confirmed"`, matching spec §4.1 (persist the new reservation with status
`confirmed`). -/
def create_document_booking (s : ServerState) (uid : String) (payload : BookingIn) :
    Nat × ServerState :=
  (s.next_id,
   { s with
       bookings := s.bookings ++
         [{ id := s.next_id
            user_id := uid
            court_id := payload.court_id
            start_time := payload.start_time
            end_time := payload.end_time
            status := .confirmed }]
       next_id := s.next_id + 1 })

/-- `create_booking` (POST /bookings) from `main.py`: authenticate the
token, run the overlap query, raise
`HTTPException(400, "Court already booked for that time")` when it is
non-empty, otherwise persist the payload with `user_id` taken from the
token's user and return the new id.  The state component of the result is
the store after the call (unchanged whenever an error is raised, since
the only write happens after all checks). -/
def create_booking (s : ServerState) (payload : BookingIn) (token : String) :
    Except ApiError Nat × ServerState :=
  match get_current_user s token with
  | .error e => (.error e, s)
  | .ok u =>
    if bookingFind s.bookings payload = [] then
      let r := create_document_booking s u.user_id payload
      (.ok r.1, r.2)
    else
      (.error (.http 400 "Court already booked for that time"), s)

/-- Modelled from the spec: `get_documents` lives in `database.py`, which
is not under `src/`.  Spec §4.3: `List(kind, filter?)` returns the
matching documents, the filter being an equality predicate map; no
ordering transformation is part of the contract, so the stored
(insertion) order is returned. -/
def get_documents_booking (bookings : List BookingDoc) (uid : String) : List BookingDoc :=
  bookings.filter fun b => b.user_id == uid

/-- `my_bookings` (GET /my/bookings) from `main.py`: authenticate, then
return `get_documents("booking", {"user_id": u["user_id"]})`. -/
def my_bookings (s : ServerState) (token : String) : Except ApiError (List BookingDoc) :=
  match get_current_user s token with
  | .error e => .error e
  | .ok u => .ok (get_documents_booking s.bookings u.user_id)

/-- A server state with a given token map and an empty booking store. -/
def emptyStore (tokens : List (String × UserRec)) : ServerState :=
  { tokens := tokens, bookings := [], next_id := 0 }

/-- Run a sequence of POST /bookings requests (payload, token) in order;
a failed call leaves the state unchanged, so this covers every
interleaving of successful and failed calls. -/
def runCreates (s : ServerState) (reqs : List (BookingIn × String)) : ServerState :=
  reqs.foldl (fun st r => (create_booking st r.1 r.2).2) s

/-- The spec's invariant on a booking store: no two distinct confirmed
reservations on the same resource have overlapping half-open intervals,
overlap being `a.start < b.end AND b.start < a.end`. -/
def noConfirmedOverlap (bs : List BookingDoc) : Prop :=
  bs.Pairwise fun a b =>
    a.status = .confirmed → b.status = .confirmed → a.court_id = b.court_id →
      ¬ (a.start_time < b.end_time ∧ b.start_time < a.end_time)

lemma bookingFind_eq_nil {bs : List BookingDoc} {p : BookingIn}
    (h : bookingFind bs p = []) :
    ∀ b ∈ bs,
      ¬ (b.court_id = p.court_id ∧ b.start_time < p.end_time ∧
          p.start_time < b.end_time) := by
  intro b hb hcon
  have hf := List.filter_eq_nil_iff.mp h b hb
  apply hf
  simp only [Bool.and_eq_true, beq_iff_eq, decide_eq_true_eq, gt_iff_lt]
  exact ⟨⟨hcon.1, hcon.2.1⟩, hcon.2.2⟩

lemma create_booking_preserves_invariant (s : ServerState) (p : BookingIn)
    (tok : String) (h : noConfirmedOverlap s.bookings) :
    noConfirmedOverlap ((create_booking s p tok).2).bookings := by
  unfold create_booking
  cases hl : get_current_user s tok with
  | error e => exact h
  | ok u =>
    by_cases hov : bookingFind s.bookings p = []
    · simp only [hov, if_pos]
      unfold noConfirmedOverlap create_document_booking
      rw [List.pairwise_append]
      refine ⟨h, List.pairwise_singleton _ _, ?_⟩
      intro a ha b hb
      simp only [List.mem_singleton] at hb
      subst hb
      intro _ _ hcourt hoverlap
      exact bookingFind_eq_nil hov a ha ⟨hcourt, hoverlap.1, hoverlap.2⟩
    · simp only [hov, if_neg]
      exact h

lemma runCreates_invariant (reqs : List (BookingIn × String)) (s : ServerState)
    (h : noConfirmedOverlap s.bookings) :
    noConfirmedOverlap (runCreates s reqs).bookings := by
  induction reqs generalizing s with
  | nil => exact h
  | cons r rs ih =>
    exact ih _ (create_booking_preserves_invariant s r.1 r.2 h)

lemma create_booking_error_state (s : ServerState) (p : BookingIn) (tok : String)
    (e : ApiError) (h : (create_booking s p tok).1 = .error e) :
    (create_booking s p tok).2 = s := by
  unfold create_booking at h ⊢
  cases hl : get_current_user s tok with
  | error e2 => simp only [hl]
  | ok u =>
    simp only [hl] at h ⊢
    by_cases hov : bookingFind s.bookings p = []
    · simp only [hov, if_true] at h
      exact Except.noConfusion h
    · simp only [hov, if_neg, ite_false]

lemma create_booking_ok_shape (s : ServerState) (p : BookingIn) (tok : String)
    (i : Nat) (h : (create_booking s p tok).1 = .ok i) :
    ∃ u : UserRec, s.tokens.lookup tok = some u ∧ i = s.next_id ∧
      (create_booking s p tok).2 =
        { s with
            bookings := s.bookings ++
              [{ id := s.next_id
                 user_id := u.user_id
                 court_id := p.court_id
                 start_time := p.start_time
                 end_time := p.end_time
                 status := .confirmed }]
            next_id := s.next_id + 1 } := by
  unfold create_booking get_current_user at h ⊢
  cases hl : s.tokens.lookup tok with
  | none =>
    simp only [hl] at h
    exact Except.noConfusion h
  | some u =>
    refine ⟨u, rfl, ?_⟩
    simp only [hl] at h ⊢
    by_cases hov : bookingFind s.bookings p = []
    · simp only [hov, if_true] at h ⊢
      unfold create_document_booking at h ⊢
      exact ⟨(Except.ok.injEq .. |>.mp h).symm, rfl⟩
    · simp only [hov, ite_false] at h
      exact Except.noConfusion h

lemma create_booking_conflict_of_mem (s : ServerState) (p : BookingIn)
    (tok : String) (u : UserRec) (b : BookingDoc)
    (hu : s.tokens.lookup tok = some u) (hb : b ∈ s.bookings)
    (hc : b.court_id = p.court_id) (h1 : b.start_time < p.end_time)
    (h2 : p.start_time < b.end_time) :
    create_booking s p tok =
      (.error (.http 400 "Court already booked for that time"), s) := by
  have hmem : b ∈ bookingFind s.bookings p := by
    unfold bookingFind
    refine List.mem_filter.mpr ⟨hb, ?_⟩
    simp only [Bool.and_eq_true, beq_iff_eq, decide_eq_true_eq, gt_iff_lt]
    exact ⟨⟨hc, h1⟩, h2⟩
  have hov : bookingFind s.bookings p ≠ [] := List.ne_nil_of_mem hmem
  unfold create_booking get_current_user
  simp only [hu, hov, ite_false, if_neg]

/-- C2: `create_booking` performs exactly one write to the persistence
layer on success (the booking store grows by exactly the one new
document, appended after the full conflict check passes, and the token
map is untouched) and performs no write on any failure: when the call
returns an error, the state is unchanged. -/
theorem create_booking_write_discipline (s : ServerState) (p : BookingIn)
    (tok : String) :
    (∀ i : Nat, (create_booking s p tok).1 = .ok i →
      ∃ d : BookingDoc,
        ((create_booking s p tok).2).bookings = s.bookings ++ [d] ∧
        ((create_booking s p tok).2).tokens = s.tokens) ∧
    (∀ e : ApiError, (create_booking s p tok).1 = .error e →
      (create_booking s p tok).2 = s) := by
  constructor
  · intro i hok
    obtain ⟨u, _, _, hshape⟩ := create_booking_ok_shape s p tok i hok
    exact ⟨_, by rw [hshape], by rw [hshape]⟩
  · intro e herr
    exact create_booking_error_state s p tok e herr

/-- Witness for C2 at concrete inputs: a successful call appends exactly
one document, and a call with an unknown token leaves the state
unchanged. -/
theorem create_booking_write_discipline_witness :
    (∃ d : BookingDoc,
      ((create_booking (emptyStore [("t", ⟨"u", "player"⟩)])
          ⟨"court1", 600, 660⟩ "t").2).bookings =
        (emptyStore [("t", ⟨"u", "player"⟩)]).bookings ++ [d] ∧
      ((create_booking (emptyStore [("t", ⟨"u", "player"⟩)])
          ⟨"court1", 600, 660⟩ "t").2).tokens =
        (emptyStore [("t", ⟨"u", "player"⟩)]).tokens) ∧
    (create_booking (emptyStore [("t", ⟨"u", "player"⟩)])
        ⟨"court1", 600, 660⟩ "bad").2 =
      emptyStore [("t", ⟨"u", "player"⟩)] :=
  ⟨(create_booking_write_discipline (emptyStore [("t", ⟨"u", "player"⟩)])
      ⟨"court1", 600, 660⟩ "t").1 0 rfl,
   (create_booking_write_discipline (emptyStore [("t", ⟨"u", "player"⟩)])
      ⟨"court1", 600, 660⟩ "bad").2 (.http 401 "Invalid token") rfl⟩

/-- C1: after any sequence of successful `CreateReservation`
(POST /bookings) calls starting from an empty store, no two distinct
confirmed reservations on the same `resource_id` have overlapping
half-open intervals: `¬(a.start_time < b.end_time ∧ b.start_time <
a.end_time)` holds for every such pair. -/
theorem no_double_booking_after_any_run (tokens : List (String × UserRec))
    (reqs : List (BookingIn × String)) :
    noConfirmedOverlap (runCreates (emptyStore tokens) reqs).bookings :=
  runCreates_invariant reqs _ List.Pairwise.nil

/-- C3: the overlap test used by `create_booking` is exactly the
half-open rule — a stored reservation conflicts with the payload iff it
is on the same court and `b.start < p.end ∧ p.start < b.end` — so
touching endpoints do not conflict: from an empty store, booking
`[10:00,11:00)` (600–660) and then `[11:00,12:00)` (660–720) on the same
court both succeed. -/
theorem half_open_overlap_rule :
    (∀ (bs : List BookingDoc) (p : BookingIn) (b : BookingDoc),
      b ∈ bookingFind bs p ↔
        b ∈ bs ∧ b.court_id = p.court_id ∧
          b.start_time < p.end_time ∧ p.start_time < b.end_time) ∧
    (create_booking (emptyStore [("t", ⟨"u", "player"⟩)])
        ⟨"court1", 600, 660⟩ "t").1 = .ok 0 ∧
    (create_booking
        (create_booking (emptyStore [("t", ⟨"u", "player"⟩)])
          ⟨"court1", 600, 660⟩ "t").2
        ⟨"court1", 660, 720⟩ "t").1 = .ok 1 := by
  refine ⟨?_, rfl, rfl⟩
  intro bs p b
  unfold bookingFind
  rw [List.mem_filter]
  simp only [Bool.and_eq_true, beq_iff_eq, decide_eq_true_eq, gt_iff_lt,
    and_assoc]

/-- C4: when the proposed interval strictly overlaps an existing
reservation on the same resource, `create_booking` fails with HTTP 400
and detail "Court already booked for that time", leaving the state
unchanged. -/
theorem strict_overlap_conflict (s : ServerState) (p : BookingIn)
    (tok : String) (u : UserRec) (b : BookingDoc)
    (hu : s.tokens.lookup tok = some u) (hb : b ∈ s.bookings)
    (hc : b.court_id = p.court_id) (h1 : b.start_time < p.end_time)
    (h2 : p.start_time < b.end_time) :
    create_booking s p tok =
      (.error (.http 400 "Court already booked for that time"), s) :=
  create_booking_conflict_of_mem s p tok u b hu hb hc h1 h2

/-- Witness for C4: booking `[10:00,11:00)` (600–660) then
`[10:30,10:45)` (630–645) on the same court — the second call fails with
the 400 conflict error. -/
theorem strict_overlap_conflict_witness :
    create_booking
        (create_booking (emptyStore [("t", ⟨"u", "player"⟩)])
          ⟨"court1", 600, 660⟩ "t").2
        ⟨"court1", 630, 645⟩ "t" =
      (.error (.http 400 "Court already booked for that time"),
       (create_booking (emptyStore [("t", ⟨"u", "player"⟩)])
          ⟨"court1", 600, 660⟩ "t").2) :=
  strict_overlap_conflict _ ⟨"court1", 630, 645⟩ "t" ⟨"u", "player"⟩
    ⟨0, "u", "court1", 600, 660, .confirmed⟩ rfl
    (List.mem_singleton.mpr rfl) rfl (by decide) (by decide)

/-- C5: evaluation at the failing input — `create_booking` does not
validate interval ordering: a request with `start_time ≥ end_time`
(start 11:00 = 660, end 10:00 = 600) on an empty store succeeds and the
inverted-interval reservation is persisted, instead of failing with a
400 `ValidationError`. -/
theorem inverted_interval_is_accepted :
    (660 : Int) ≥ 600 ∧
    (create_booking (emptyStore [("t", ⟨"u", "player"⟩)])
        ⟨"court1", 660, 600⟩ "t").1 = .ok 0 ∧
    ((create_booking (emptyStore [("t", ⟨"u", "player"⟩)])
        ⟨"court1", 660, 600⟩ "t").2).bookings =
      [⟨0, "u", "court1", 660, 600, .confirmed⟩] :=
  ⟨by decide, rfl, rfl⟩

/-- C6: the conflict check does not filter by status — an existing
`cancelled` reservation on the target court still causes an overlapping
booking request to be rejected with the 400 conflict error. -/
theorem cancelled_reservation_still_blocks (s : ServerState) (p : BookingIn)
    (tok : String) (u : UserRec) (b : BookingDoc)
    (hu : s.tokens.lookup tok = some u) (hb : b ∈ s.bookings)
    (_hst : b.status = .cancelled) (hc : b.court_id = p.court_id)
    (h1 : b.start_time < p.end_time) (h2 : p.start_time < b.end_time) :
    create_booking s p tok =
      (.error (.http 400 "Court already booked for that time"), s) :=
  create_booking_conflict_of_mem s p tok u b hu hb hc h1 h2

/-- Witness for C6: a store holding one cancelled reservation
`[10:00,11:00)` still rejects an overlapping `[10:30,10:45)` request. -/
theorem cancelled_reservation_still_blocks_witness :
    create_booking
        { tokens := [("t", ⟨"u", "player"⟩)]
          bookings := [⟨0, "u", "court1", 600, 660, .cancelled⟩]
          next_id := 1 }
        ⟨"court1", 630, 645⟩ "t" =
      (.error (.http 400 "Court already booked for that time"),
       { tokens := [("t", ⟨"u", "player"⟩)]
         bookings := [⟨0, "u", "court1", 600, 660, .cancelled⟩]
         next_id := 1 }) :=
  cancelled_reservation_still_blocks _ ⟨"court1", 630, 645⟩ "t"
    ⟨"u", "player"⟩ ⟨0, "u", "court1", 600, 660, .cancelled⟩ rfl
    (List.mem_singleton.mpr rfl) rfl rfl (by decide) (by decide)

/-- C7: rejection is idempotent — when a `create_booking` call fails with
the conflict error, the immediately repeated identical call (on the state
the failed call returned, which it left unchanged) fails with the same
conflict error. -/
theorem conflict_rejection_idempotent (s : ServerState) (p : BookingIn)
    (tok : String)
    (h : (create_booking s p tok).1 =
      .error (.http 400 "Court already booked for that time")) :
    (create_booking ((create_booking s p tok).2) p tok).1 =
      .error (.http 400 "Court already booked for that time") := by
  rw [create_booking_error_state s p tok _ h]
  exact h

/-- Witness for C7: a concrete conflicting request fails, and the
identical retry fails with the same error. -/
theorem conflict_rejection_idempotent_witness :
    (create_booking
        { tokens := [("t", ⟨"u", "player"⟩)]
          bookings := [⟨0, "u", "court1", 600, 660, .confirmed⟩]
          next_id := 1 }
        ⟨"court1", 610, 620⟩ "t").1 =
      .error (.http 400 "Court already booked for that time") ∧
    (create_booking
        ((create_booking
          { tokens := [("t", ⟨"u", "player"⟩)]
            bookings := [⟨0, "u", "court1", 600, 660, .confirmed⟩]
            next_id := 1 }
          ⟨"court1", 610, 620⟩ "t").2)
        ⟨"court1", 610, 620⟩ "t").1 =
      .error (.http 400 "Court already booked for that time") :=
  ⟨rfl,
   conflict_rejection_idempotent
     { tokens := [("t", ⟨"u", "player"⟩)]
       bookings := [⟨0, "u", "court1", 600, 660, .confirmed⟩]
       next_id := 1 }
     ⟨"court1", 610, 620⟩ "t" rfl⟩

/-- C8 counterexample: the conflict error is one fixed value — conflicts
against reservations with different ids and different intervals produce
literally the same error, and it equals the constant
`HTTPException(400, "Court already booked for that time")`, so the error
includes neither the conflicting reservation's id nor its interval. -/
theorem conflict_error_carries_no_reservation_info :
    (create_booking
        { tokens := [("t", ⟨"u", "player"⟩)]
          bookings := [⟨0, "u", "court1", 600, 660, .confirmed⟩]
          next_id := 1 }
        ⟨"court1", 630, 645⟩ "t").1 =
      (create_booking
        { tokens := [("t", ⟨"u", "player"⟩)]
          bookings := [⟨5, "u", "court1", 100, 200, .confirmed⟩]
          next_id := 6 }
        ⟨"court1", 150, 160⟩ "t").1 ∧
    (create_booking
        { tokens := [("t", ⟨"u", "player"⟩)]
          bookings := [⟨0, "u", "court1", 600, 660, .confirmed⟩]
          next_id := 1 }
        ⟨"court1", 630, 645⟩ "t").1 =
      .error (.http 400 "Court already booked for that time") :=
  ⟨rfl, rfl⟩

/-- C8 amended: on conflict `create_booking` fails with the constant
error `HTTPException(400, "Court already booked for that time")` — every
error an authenticated call can return is that fixed value, carrying no
information about the conflicting reservation. -/
theorem conflict_error_is_fixed_constant (s : ServerState) (p : BookingIn)
    (tok : String) (u : UserRec) (hu : s.tokens.lookup tok = some u)
    (e : ApiError) (h : (create_booking s p tok).1 = .error e) :
    e = .http 400 "Court already booked for that time" := by
  unfold create_booking get_current_user at h
  simp only [hu] at h
  by_cases hov : bookingFind s.bookings p = []
  · simp only [hov, if_true] at h
    exact Except.noConfusion h
  · simp only [hov, ite_false] at h
    exact (Except.error.injEq .. |>.mp h).symm

/-- Witness for C8's amended claim: a concrete authenticated conflicting
call returns exactly the fixed error value. -/
theorem conflict_error_is_fixed_constant_witness :
    (create_booking
        { tokens := [("t", ⟨"u", "player"⟩)]
          bookings := [⟨0, "u", "court1", 600, 660, .confirmed⟩]
          next_id := 1 }
        ⟨"court1", 630, 645⟩ "t").1 =
      .error (.http 400 "Court already booked for that time") ∧
    ApiError.http 400 "Court already booked for that time" =
      .http 400 "Court already booked for that time" :=
  ⟨rfl,
   conflict_error_is_fixed_constant
     { tokens := [("t", ⟨"u", "player"⟩)]
       bookings := [⟨0, "u", "court1", 600, 660, .confirmed⟩]
       next_id := 1 }
     ⟨"court1", 630, 645⟩ "t" ⟨"u", "player"⟩ rfl
     (.http 400 "Court already booked for that time") rfl⟩

/-- C9 counterexample: creating a 14:00 reservation (840–900) before a
09:00 one (540–600) for the same user makes GET /my/bookings return them
in creation order — start times `[840, 540]` — which is not ordered by
start_time ascending since `¬(840 ≤ 540)`. -/
theorem my_bookings_not_sorted_by_start :
    my_bookings
        (runCreates (emptyStore [("t", ⟨"u", "player"⟩)])
          [(⟨"court1", 840, 900⟩, "t"), (⟨"court1", 540, 600⟩, "t")]) "t" =
      .ok [⟨0, "u", "court1", 840, 900, .confirmed⟩,
           ⟨1, "u", "court1", 540, 600, .confirmed⟩] ∧
    ¬ ((840 : Int) ≤ 540) :=
  ⟨rfl, by decide⟩

/-- C9 amended: `my_bookings` returns all reservations of any status
attributed to the authenticated user, in stored (insertion/creation)
order, not sorted by start_time; the spec's example `[R1, R2]` comes out
ascending only because R1 (09:00) was created before R2 (14:00). -/
theorem my_bookings_returns_user_bookings_in_insertion_order
    (s : ServerState) (tok : String) (u : UserRec)
    (hu : s.tokens.lookup tok = some u) :
    my_bookings s tok =
      .ok (s.bookings.filter fun b => b.user_id == u.user_id) := by
  unfold my_bookings get_current_user get_documents_booking
  simp only [hu]

/-- Witness for C9's amended claim: on a concrete store holding the
user's R1 (09:00, created first) and R2 (14:00), the endpoint returns
the insertion-order filter of the store — here `[R1, R2]`. -/
theorem my_bookings_insertion_order_witness :
    my_bookings
        { tokens := [("t", ⟨"u", "player"⟩)]
          bookings := [⟨0, "u", "court1", 540, 600, .confirmed⟩,
                       ⟨1, "u", "court1", 840, 900, .confirmed⟩]
          next_id := 2 }
        "t" =
      .ok (([⟨0, "u", "court1", 540, 600, .confirmed⟩,
             ⟨1, "u", "court1", 840, 900, .confirmed⟩] :
              List BookingDoc).filter fun b => b.user_id == "u") :=
  my_bookings_returns_user_bookings_in_insertion_order
    { tokens := [("t", ⟨"u", "player"⟩)]
      bookings := [⟨0, "u", "court1", 540, 600, .confirmed⟩,
                   ⟨1, "u", "court1", 840, 900, .confirmed⟩]
      next_id := 2 }
    "t" ⟨"u", "player"⟩ rfl

/-- C10: every successful POST /bookings call persists the reservation
with `user_id` equal to the user resolved from the caller's token; the
stored document is built only from that user and the payload's three
fields (`court_id`, `start_time`, `end_time` — `BookingIn` carries no
`user_id` field), so the caller cannot attribute the booking to another
user. -/
theorem booking_attributed_to_token_user (s : ServerState) (p : BookingIn)
    (tok : String) (u : UserRec) (i : Nat)
    (hu : s.tokens.lookup tok = some u)
    (h : (create_booking s p tok).1 = .ok i) :
    ((create_booking s p tok).2).bookings =
      s.bookings ++
        [{ id := s.next_id
           user_id := u.user_id
           court_id := p.court_id
           start_time := p.start_time
           end_time := p.end_time
           status := .confirmed }] := by
  obtain ⟨u2, hu2, _, hshape⟩ := create_booking_ok_shape s p tok i h
  rw [hu] at hu2
  injection hu2 with h3
  subst h3
  rw [hshape]

/-- Witness for C10: a concrete successful call stores the booking with
the token's user id "u". -/
theorem booking_attributed_to_token_user_witness :
    ((create_booking (emptyStore [("t", ⟨"u", "player"⟩)])
        ⟨"court1", 600, 660⟩ "t").2).bookings =
      (emptyStore [("t", ⟨"u", "player"⟩)]).bookings ++
        [⟨0, "u", "court1", 600, 660, .confirmed⟩] :=
  booking_attributed_to_token_user
    (emptyStore [("t", ⟨"u", "player"⟩)]) ⟨"court1", 600, 660⟩ "t"
    ⟨"u", "player"⟩ 0 rfl rfl

end TennisClub
